import Mathlib

/-!
Shallow embedding of the core FX pipeline of `src/core/fx_service.py` and
the response shapes of `src/core/schemas.py`.

Modelling conventions:
* Python floats are modelled as exact rationals (`ℚ`); `round(x, n)` is
  Python's banker's rounding (round half to even) at `n` decimal digits.
* Python string comparison (used by `sorted` over date keys) is code-point
  lexicographic; it is embedded as the executable `strLe` below and bridged
  to Mathlib's linear order on `String`, which coincides with it.
* `sorted` is embedded as `List.insertionSort` over that order; on the
  duplicate-free key set of a Python `dict` any stable sort produces the
  same, unique sorted list.
* Exceptions are modelled with `Except`; the `httpx` exception classes that
  matter to the retry predicate are the constructors of `PyErr`.
* The module-level `TTLCache` and wall-clock time are passed explicitly:
  every stateful operation takes the current time `now : ℕ` (seconds) and
  an `FxState` and returns the new state.  `FxState` additionally counts
  network attempts and fallback loads performed, so that "performs zero
  network calls" is a statement about the final state.
-/

namespace FxService

/-- The exceptions `_fetch_from_api` can raise, as classes of the Python
implementation: `timeout` is `httpx.TimeoutException`, `connectError` is
`httpx.ConnectError`, `statusError code` is the `httpx.HTTPStatusError`
raised by `resp.raise_for_status()` for a non-2xx status `code`, and
`jsonDecodeError` is the `json.JSONDecodeError` raised by `resp.json()` on
a malformed body. -/
inductive PyErr where
  | timeout
  | connectError
  | statusError (code : ℕ)
  | jsonDecodeError
deriving DecidableEq

/-- `isinstance(e, httpx.HTTPError)`: in httpx, `HTTPError` is the common
base class of `RequestError` (timeouts, connection failures) and
`HTTPStatusError` (raised by `raise_for_status` for every non-2xx status,
4xx and 5xx alike).  A JSON decode error is not an httpx error. -/
def isHttpxHTTPError : PyErr → Bool
  | .timeout => true
  | .connectError => true
  | .statusError _ => true
  | .jsonDecodeError => false

/-- `isinstance(e, httpx.TimeoutException)`. -/
def isTimeoutException : PyErr → Bool
  | .timeout => true
  | _ => false

/-- The retry predicate of `_fetch_from_api`:
`retry_if_exception_type((httpx.HTTPError, httpx.TimeoutException))`. -/
def retryOn (e : PyErr) : Bool :=
  isHttpxHTTPError e || isTimeoutException e

/-- A raw rate document: the decoded JSON body.  Only the `"rates"` field
is consumed by the core (`data.get("rates", {})`); it maps a date string to
a currency→rate map.  `rates := none` models a body with no `"rates"` key. -/
structure RawDoc where
  rates : Option (List (String × List (String × ℚ)))
deriving DecidableEq

/-- `data.get("rates", {})`. -/
def RawDoc.getRates (d : RawDoc) : List (String × List (String × ℚ)) :=
  d.rates.getD []

/-- One network attempt inside `_fetch_from_api`: the GET, the
`raise_for_status()` and the `resp.json()` either produce a decoded
document or raise a `PyErr`.  An oracle gives the outcome of each attempt
(0-based). -/
def AttemptOracle : Type := ℕ → Except PyErr RawDoc

/-- The tenacity loop of `_fetch_from_api` with `reraise=True`:
`remaining` further attempts are allowed after the current one, `idx` is
the 0-based index of the current attempt.  Returns the final outcome and
the number of attempts performed.  A raised error that does not satisfy
`retryOn` propagates at once; a retryable error propagates once the
attempt budget (`stop_after_attempt(3)`) is exhausted. -/
def retryRun (o : AttemptOracle) : ℕ → ℕ → Except PyErr RawDoc × ℕ
  | remaining, idx =>
    match o idx with
    | .ok d => (.ok d, idx + 1)
    | .error e =>
      if retryOn e then
        match remaining with
        | 0 => (.error e, idx + 1)
        | r + 1 => retryRun o r (idx + 1)
      else (.error e, idx + 1)

/-- `_fetch_from_api`: at most 3 attempts (`stop_after_attempt(3)`). -/
def fetch_from_api (o : AttemptOracle) : Except PyErr RawDoc × ℕ :=
  retryRun o 2 0

/-- The exceptions `_load_fallback` can raise: an I/O error from `open`
or a JSON parse error from `json.load`. -/
inductive FallbackErr where
  | ioError (msg : String)
  | parseError (msg : String)
deriving DecidableEq

/-- One entry of the `cachetools.TTLCache`: the key, the stored document
and the absolute expiry time (insertion time + TTL). -/
structure CacheEntry where
  key : String
  value : RawDoc
  expires : ℕ
deriving DecidableEq

/-- The `TTLCache(maxsize=256, ttl=900)` of the module: entries are kept
most-recently-inserted first. -/
structure TTLCache where
  maxsize : ℕ
  ttl : ℕ
  entries : List CacheEntry
deriving DecidableEq

/-- Cache read (`key in _cache` / `_cache[key]`): an entry whose expiry
has passed is a miss; expiry is checked at read time. -/
def TTLCache.lookup (c : TTLCache) (k : String) (now : ℕ) : Option RawDoc :=
  (c.entries.find? fun e => e.key == k && decide (now < e.expires)).map
    fun e => e.value

/-- Cache write (`_cache[key] = data`): expired entries and a previous
entry for the same key are dropped, then — as `cachetools` evicts the
soonest-expiring (with a constant TTL: oldest-inserted) entry when the
capacity bound would be exceeded — the store is trimmed to make room, and
the new entry is inserted with expiry `now + ttl`. -/
def TTLCache.set (c : TTLCache) (k : String) (v : RawDoc) (now : ℕ) : TTLCache :=
  let live := c.entries.filter fun e => (e.key != k) && decide (now < e.expires)
  let trimmed := if c.maxsize ≤ live.length then live.take (c.maxsize - 1) else live
  { c with entries := { key := k, value := v, expires := now + c.ttl } :: trimmed }

/-- The module-level cache at import time: `TTLCache(maxsize=256, ttl=900)`. -/
def initCache : TTLCache :=
  { maxsize := 256, ttl := 900, entries := [] }

/-- Mutable module state threaded through the pipeline, instrumented with
the number of network attempts and fallback loads performed so far. -/
structure FxState where
  cache : TTLCache
  networkCalls : ℕ
  fallbackLoads : ℕ
deriving DecidableEq

/-- The module state at import time. -/
def initState : FxState :=
  { cache := initCache, networkCalls := 0, fallbackLoads := 0 }

/-- The environment of one `fetch_rates` call: the outcome of each network
attempt and the outcome of reading/parsing the fallback file. -/
structure Env where
  attempt : AttemptOracle
  fallback : Except FallbackErr RawDoc

/-- `cache_key = f"{start_date}..{end_date}"`. -/
def cacheKey (start_date end_date : String) : String :=
  start_date ++ ".." ++ end_date

/-- `fetch_rates`: cache lookup; on miss, `_fetch_from_api` under the
retry policy; on any exception from it, `_load_fallback()` (whose own
failure propagates); the obtained document is stored in the cache and
returned. -/
def fetch_rates (env : Env) (now : ℕ) (st : FxState)
    (start_date end_date : String) : Except FallbackErr RawDoc × FxState :=
  let key := cacheKey start_date end_date
  match st.cache.lookup key now with
  | some doc => (.ok doc, st)
  | none =>
    let fr := fetch_from_api env.attempt
    let st1 : FxState :=
      { st with networkCalls := st.networkCalls + fr.2 }
    match fr.1 with
    | .ok data =>
      (.ok data, { st1 with cache := st1.cache.set key data now })
    | .error _ =>
      let st2 : FxState :=
        { st1 with fallbackLoads := st1.fallbackLoads + 1 }
      match env.fallback with
      | .ok data =>
        (.ok data, { st2 with cache := st2.cache.set key data now })
      | .error fe => (.error fe, st2)

/-- Code-point lexicographic comparison of character lists, the order
Python string comparison uses. -/
def lexLe : List Char → List Char → Bool
  | [], _ => true
  | _ :: _, [] => false
  | a :: as, b :: bs =>
    if a.toNat < b.toNat then true
    else if b.toNat < a.toNat then false
    else lexLe as bs

/-- Python `<=` on strings: code-point lexicographic. -/
def strLe (a b : String) : Bool :=
  lexLe a.toList b.toList

/-- Python `sorted(keys)`: a stable sort under `strLe`; on the
duplicate-free keys of a `dict` its result is the unique `strLe`-sorted
arrangement. -/
def sortKeys (l : List String) : List String :=
  l.insertionSort fun a b => strLe a b = true

/-- `dict.get`: the value stored at key `k`, if any. -/
def dictGet {α : Type} (l : List (String × α)) (k : String) : Option α :=
  (l.find? fun p => p.1 == k).map fun p => p.2

/-- `rates[date_str].get("USD", 0.0)` — the USD rate of one date, `0.0`
when the date's currency map has no `"USD"` entry (and, vacuously, when
the date is absent, which cannot happen for a key of the dict). -/
def usdRate (rates : List (String × List (String × ℚ))) (d : String) : ℚ :=
  ((dictGet rates d).bind fun m => dictGet m "USD").getD 0

/-- Python's `round` to an integer: round half to even (banker's
rounding), which Python applies to the exact value. -/
def roundHalfEven (q : ℚ) : ℤ :=
  let n := ⌊q⌋
  if q - n < 1 / 2 then n
  else if (1 : ℚ) / 2 < q - n then n + 1
  else if n % 2 = 0 then n else n + 1

/-- Python's `round(x, ndigits)`. -/
def pyRound (q : ℚ) (ndigits : ℕ) : ℚ :=
  (roundHalfEven (q * (10 : ℚ) ^ ndigits) : ℚ) / (10 : ℚ) ^ ndigits

/-- `_safe_pct_change`: percentage change guarded against division by
zero. -/
def safe_pct_change (current previous : ℚ) : ℚ :=
  if previous = 0 then 0
  else pyRound (((current - previous) / previous) * 100) 4

/-- `core.schemas.DayRecord`. -/
structure DayRecord where
  date : String
  rate : ℚ
  pct_change : Option ℚ
deriving DecidableEq

/-- The loop body of `_build_day_records`: walk the sorted dates carrying
`prev_rate` (`none` before the first record). -/
def buildRecordsGo (rates : List (String × List (String × ℚ))) :
    List String → Option ℚ → List DayRecord
  | [], _ => []
  | d :: ds, prev =>
    let rate := usdRate rates d
    { date := d, rate := rate,
      pct_change := prev.map fun p => safe_pct_change rate p }
      :: buildRecordsGo rates ds (some rate)

/-- `_build_day_records`: one record per date key, in sorted date order. -/
def build_day_records (rates : List (String × List (String × ℚ))) :
    List DayRecord :=
  buildRecordsGo rates (sortKeys (rates.map fun p => p.1)) none

/-- `core.schemas.Totals`. -/
structure Totals where
  start_rate : ℚ
  end_rate : ℚ
  total_pct_change : ℚ
  mean_rate : ℚ
deriving DecidableEq

/-- `_build_totals`. -/
def build_totals (records : List DayRecord) : Totals :=
  if h : records = [] then
    { start_rate := 0, end_rate := 0, total_pct_change := 0, mean_rate := 0 }
  else
    let start_rate := (records.head h).rate
    let end_rate := (records.getLast h).rate
    let total_pct_change := safe_pct_change end_rate start_rate
    let mean_rate :=
      pyRound ((records.map fun r => r.rate).sum / (records.length : ℚ)) 6
    { start_rate := start_rate, end_rate := end_rate,
      total_pct_change := total_pct_change, mean_rate := mean_rate }

/-- `core.schemas.BreakdownChoice`. -/
inductive BreakdownChoice where
  | day
  | none
deriving DecidableEq

/-- The `.value` of the enum member. -/
def BreakdownChoice.value : BreakdownChoice → String
  | .day => "day"
  | .none => "none"

/-- `core.schemas.SummaryResponse`; `base` and `target` default to
`"EUR"` and `"USD"` and `get_summary` does not override them. -/
structure SummaryResponse where
  base : String := "EUR"
  target : String := "USD"
  start_date : String
  end_date : String
  breakdown : String
  days : Option (List DayRecord)
  totals : Totals
deriving DecidableEq

/-- `get_summary`: fetch (with cache/retry/fallback), read
`data.get("rates", {})`, build records and totals, assemble the response.
A terminal failure of `fetch_rates` propagates. -/
def get_summary (env : Env) (now : ℕ) (st : FxState)
    (start_date end_date : String) (breakdown : BreakdownChoice) :
    Except FallbackErr SummaryResponse × FxState :=
  match fetch_rates env now st start_date end_date with
  | (.error e, st') => (.error e, st')
  | (.ok data, st') =>
    let raw_rates := data.getRates
    let records := build_day_records raw_rates
    let totals := build_totals records
    (.ok { start_date := start_date, end_date := end_date,
           breakdown := breakdown.value,
           days := if breakdown = BreakdownChoice.day then some records
                   else Option.none,
           totals := totals }, st')

/-! ### Decidable equality of `Except` results, for concrete evaluations -/

instance {ε α : Type} [DecidableEq ε] [DecidableEq α] :
    DecidableEq (Except ε α) := fun a b =>
  match a, b with
  | .error x, .error y =>
    if h : x = y then isTrue (by rw [h]) else isFalse (by simp [h])
  | .error _, .ok _ => isFalse (by simp)
  | .ok _, .error _ => isFalse (by simp)
  | .ok x, .ok y =>
    if h : x = y then isTrue (by rw [h]) else isFalse (by simp [h])

/-! ### The executable string order agrees with Mathlib's order on `String` -/

theorem char_eq_of_toNat_eq {a b : Char} (h : a.toNat = b.toNat) : a = b := by
  apply Char.eq_of_val_eq
  apply UInt32.eq_of_val_eq
  exact Fin.eq_of_val_eq h

theorem char_lt_iff_toNat_lt (a b : Char) : a < b ↔ a.toNat < b.toNat :=
  Iff.rfl

theorem lexLe_iff_lex_or_eq (as bs : List Char) :
    lexLe as bs = true ↔ (List.Lex (· < ·) as bs ∨ as = bs) := by
  induction as generalizing bs with
  | nil =>
    cases bs with
    | nil => simp [lexLe]
    | cons b bs => simp [lexLe, List.Lex.nil]
  | cons a as ih =>
    cases bs with
    | nil =>
      simp only [lexLe, Bool.false_eq_true, false_iff]
      rintro (h | h)
      · exact List.Lex.not_nil_right _ _ h
      · exact List.noConfusion h
    | cons b bs =>
      by_cases hab : a.toNat < b.toNat
      · simp only [lexLe, if_pos hab, true_iff]
        exact Or.inl (List.Lex.rel hab)
      · by_cases hba : b.toNat < a.toNat
        · simp only [lexLe, if_neg hab, if_pos hba, Bool.false_eq_true, false_iff]
          rintro (h | h)
          · cases h with
            | cons h => exact absurd hba (lt_irrefl _)
            | rel h => exact hab ((char_lt_iff_toNat_lt _ _).1 h)
          · cases h
            exact absurd hba (lt_irrefl _)
        · have heq : a = b := char_eq_of_toNat_eq (by omega)
          subst heq
          simp only [lexLe, if_neg hab, if_neg hba]
          rw [ih bs, List.Lex.cons_iff, List.cons.injEq, eq_self_iff_true,
            true_and]

theorem strLe_iff_le (a b : String) : strLe a b = true ↔ a ≤ b := by
  rw [le_iff_lt_or_eq, String.lt_iff_toList_lt, ← String.toList_inj]
  exact lexLe_iff_lex_or_eq a.toList b.toList

instance : IsTotal String fun a b => strLe a b = true :=
  ⟨fun a b => by
    rw [strLe_iff_le, strLe_iff_le]
    exact le_total a b⟩

instance : IsTrans String fun a b => strLe a b = true :=
  ⟨fun a b c hab hbc => by
    rw [strLe_iff_le] at hab hbc ⊢
    exact le_trans hab hbc⟩

theorem sortKeys_perm (l : List String) : (sortKeys l).Perm l :=
  List.perm_insertionSort _ l

theorem sortKeys_sorted_le (l : List String) :
    (sortKeys l).Sorted (· ≤ ·) :=
  (List.sorted_insertionSort _ l).imp fun h => (strLe_iff_le _ _).1 h

theorem sortKeys_sorted_lt (l : List String) (h : l.Nodup) :
    (sortKeys l).Sorted (· < ·) :=
  (sortKeys_sorted_le l).lt_of_le (((sortKeys_perm l).nodup_iff).2 h)

/-! ### Helper lemmas about the record builder -/

theorem buildRecordsGo_map_date (rates : List (String × List (String × ℚ)))
    (ds : List String) (prev : Option ℚ) :
    (buildRecordsGo rates ds prev).map DayRecord.date = ds := by
  induction ds generalizing prev with
  | nil => rfl
  | cons d ds ih => simp [buildRecordsGo, ih]

theorem buildRecordsGo_rate (rates : List (String × List (String × ℚ)))
    (ds : List String) (prev : Option ℚ) :
    ∀ r ∈ buildRecordsGo rates ds prev, r.rate = usdRate rates r.date := by
  induction ds generalizing prev with
  | nil => intro r hr; cases hr
  | cons d ds ih =>
    intro r hr
    rcases List.mem_cons.1 hr with rfl | hr
    · rfl
    · exact ih (some (usdRate rates d)) r hr

theorem buildRecordsGo_pct_isSome (rates : List (String × List (String × ℚ)))
    (ds : List String) (q : ℚ) :
    ∀ r ∈ buildRecordsGo rates ds (some q), r.pct_change.isSome := by
  induction ds generalizing q with
  | nil => intro r hr; cases hr
  | cons d ds ih =>
    intro r hr
    rcases List.mem_cons.1 hr with rfl | hr
    · rfl
    · exact ih (usdRate rates d) r hr

theorem build_day_records_map_date
    (rates : List (String × List (String × ℚ))) :
    (build_day_records rates).map DayRecord.date =
      sortKeys (rates.map fun p => p.1) :=
  buildRecordsGo_map_date rates _ none

/-! ### Helper lemmas about the retry loop -/

theorem retryRun_ok (o : AttemptOracle) (remaining idx : ℕ) (d : RawDoc)
    (h : o idx = Except.ok d) :
    retryRun o remaining idx = (Except.ok d, idx + 1) := by
  cases remaining <;> rw [retryRun, h]

theorem retryRun_fatal (o : AttemptOracle) (remaining idx : ℕ) (e : PyErr)
    (h0 : o idx = Except.error e) (hfatal : retryOn e = false) :
    retryRun o remaining idx = (Except.error e, idx + 1) := by
  cases remaining <;> rw [retryRun, h0] <;> simp [hfatal]

theorem retryRun_exhausted (o : AttemptOracle) (idx : ℕ) (e : PyErr)
    (h0 : o idx = Except.error e) (hre : retryOn e = true) :
    retryRun o 0 idx = (Except.error e, idx + 1) := by
  rw [retryRun, h0]
  simp [hre]

theorem retryRun_again (o : AttemptOracle) (r idx : ℕ) (e : PyErr)
    (h0 : o idx = Except.error e) (hre : retryOn e = true) :
    retryRun o (r + 1) idx = retryRun o r (idx + 1) := by
  rw [retryRun, h0]
  simp [hre]

theorem retryRun_attempts_le (o : AttemptOracle) (remaining idx : ℕ) :
    (retryRun o remaining idx).2 ≤ idx + remaining + 1 := by
  induction remaining generalizing idx with
  | zero =>
    rcases h : o idx with e | d
    · rcases hre : retryOn e with _ | _
      · rw [retryRun_fatal o 0 idx e h hre]
      · rw [retryRun_exhausted o idx e h hre]
    · rw [retryRun_ok o 0 idx d h]
  | succ r ih =>
    rcases h : o idx with e | d
    · rcases hre : retryOn e with _ | _
      · rw [retryRun_fatal o (r + 1) idx e h hre]
        simp
      · rw [retryRun_again o r idx e h hre]
        have := ih (idx + 1)
        omega
    · rw [retryRun_ok o (r + 1) idx d h]
      simp

theorem retryRun_attempts_pos (o : AttemptOracle) (remaining idx : ℕ) :
    idx + 1 ≤ (retryRun o remaining idx).2 := by
  induction remaining generalizing idx with
  | zero =>
    rcases h : o idx with e | d
    · rcases hre : retryOn e with _ | _
      · rw [retryRun_fatal o 0 idx e h hre]
      · rw [retryRun_exhausted o idx e h hre]
    · rw [retryRun_ok o 0 idx d h]
  | succ r ih =>
    rcases h : o idx with e | d
    · rcases hre : retryOn e with _ | _
      · rw [retryRun_fatal o (r + 1) idx e h hre]
      · rw [retryRun_again o r idx e h hre]
        have := ih (idx + 1)
        omega
    · rw [retryRun_ok o (r + 1) idx d h]

/-! ### Helper lemmas about the cache and the fetch pipeline -/

theorem lookup_set_recent (c : TTLCache) (k : String) (v : RawDoc)
    (t0 t1 : ℕ) (h : t1 < t0 + c.ttl) :
    (c.set k v t0).lookup k t1 = some v := by
  simp [TTLCache.set, TTLCache.lookup, List.find?_cons, h]

theorem set_ttl (c : TTLCache) (k : String) (v : RawDoc) (t0 : ℕ) :
    (c.set k v t0).ttl = c.ttl :=
  rfl

/-- On a cache hit the call returns the cached document and leaves the
state untouched. -/
theorem fetch_rates_hit (env : Env) (now : ℕ) (st : FxState)
    (s e : String) (d : RawDoc)
    (h : st.cache.lookup (cacheKey s e) now = some d) :
    fetch_rates env now st s e = (Except.ok d, st) := by
  rw [fetch_rates, h]

/-- A successful call on a cache miss caches the returned document under
the range key at the current time, and preserves the cache's TTL. -/
theorem fetch_rates_miss_ok_cache (env : Env) (now : ℕ) (st : FxState)
    (s e : String) (d : RawDoc)
    (hmiss : st.cache.lookup (cacheKey s e) now = none)
    (hok : (fetch_rates env now st s e).1 = Except.ok d) :
    (fetch_rates env now st s e).2.cache =
      st.cache.set (cacheKey s e) d now := by
  rw [fetch_rates, hmiss] at hok ⊢
  rcases hnet : (fetch_from_api env.attempt).1 with e' | data
  · rcases hfb : env.fallback with fe | data
    · simp only [hnet, hfb] at hok
      exact Except.noConfusion hok
    · simp only [hnet, hfb] at hok ⊢
      cases hok
      rfl
  · simp only [hnet] at hok ⊢
    cases hok
    rfl

/-- On a cache miss with the network failing terminally and the fallback
readable, the call returns the fallback document, counts one fallback
load, and counts the attempts the retry loop performed. -/
theorem fetch_rates_miss_fallback_ok (env : Env) (now : ℕ) (st : FxState)
    (s e : String) (err : PyErr) (d : RawDoc)
    (hmiss : st.cache.lookup (cacheKey s e) now = none)
    (hnet : (fetch_from_api env.attempt).1 = Except.error err)
    (hfb : env.fallback = Except.ok d) :
    (fetch_rates env now st s e).1 = Except.ok d
    ∧ (fetch_rates env now st s e).2.fallbackLoads = st.fallbackLoads + 1
    ∧ (fetch_rates env now st s e).2.networkCalls =
        st.networkCalls + (fetch_from_api env.attempt).2 := by
  rw [fetch_rates, hmiss]
  simp [hnet, hfb]

/-- On a cache miss with the network failing terminally and the fallback
unreadable, the call returns the fallback loader's error itself and does
not write the cache. -/
theorem fetch_rates_miss_fallback_err (env : Env) (now : ℕ) (st : FxState)
    (s e : String) (err : PyErr) (fe : FallbackErr)
    (hmiss : st.cache.lookup (cacheKey s e) now = none)
    (hnet : (fetch_from_api env.attempt).1 = Except.error err)
    (hfb : env.fallback = Except.error fe) :
    (fetch_rates env now st s e).1 = Except.error fe
    ∧ (fetch_rates env now st s e).2.cache = st.cache := by
  rw [fetch_rates, hmiss]
  simp [hnet, hfb]

/-- After a successful call on a cache miss, any further call for the
same range strictly before the entry's expiry returns the same document
and leaves the state untouched, whatever its environment. -/
theorem fetch_rates_again (env env' : Env) (t0 t1 : ℕ) (st : FxState)
    (s e : String) (d : RawDoc)
    (hmiss : st.cache.lookup (cacheKey s e) t0 = none)
    (hok : (fetch_rates env t0 st s e).1 = Except.ok d)
    (httl : t1 < t0 + st.cache.ttl) :
    fetch_rates env' t1 (fetch_rates env t0 st s e).2 s e =
      (Except.ok d, (fetch_rates env t0 st s e).2) := by
  apply fetch_rates_hit
  rw [fetch_rates_miss_ok_cache env t0 st s e d hmiss hok]
  exact lookup_set_recent st.cache (cacheKey s e) d t0 t1 httl

/-- The response `get_summary` assembles from a successfully fetched
document. -/
theorem get_summary_ok (env : Env) (now : ℕ) (st : FxState)
    (s e : String) (bd : BreakdownChoice) (doc : RawDoc)
    (hfetch : (fetch_rates env now st s e).1 = Except.ok doc) :
    (get_summary env now st s e bd).1 =
      Except.ok
        { base := "EUR", target := "USD", start_date := s, end_date := e,
          breakdown := bd.value,
          days := if bd = BreakdownChoice.day
                  then some (build_day_records doc.getRates) else Option.none,
          totals := build_totals (build_day_records doc.getRates) } := by
  have hpair : fetch_rates env now st s e =
      (Except.ok doc, (fetch_rates env now st s e).2) := by
    rw [← hfetch]
  rw [get_summary, hpair]

/-- `get_summary` propagates a terminal `fetch_rates` failure. -/
theorem get_summary_err (env : Env) (now : ℕ) (st : FxState)
    (s e : String) (bd : BreakdownChoice) (fe : FallbackErr)
    (hfetch : (fetch_rates env now st s e).1 = Except.error fe) :
    (get_summary env now st s e bd).1 = Except.error fe := by
  have hpair : fetch_rates env now st s e =
      (Except.error fe, (fetch_rates env now st s e).2) := by
    rw [← hfetch]
  rw [get_summary, hpair]

/-- The first record's percent-change slot is `none`. -/
theorem build_day_records_head_pct
    (rates : List (String × List (String × ℚ))) (r0 : DayRecord)
    (h : (build_day_records rates).head? = some r0) :
    r0.pct_change = Option.none := by
  rw [build_day_records] at h
  cases hks : sortKeys (rates.map fun p => p.1) with
  | nil =>
    rw [hks] at h
    exact Option.noConfusion h
  | cons k ks =>
    rw [hks] at h
    rw [show buildRecordsGo rates (k :: ks) Option.none =
          { date := k, rate := usdRate rates k, pct_change := Option.none }
          :: buildRecordsGo rates ks (some (usdRate rates k)) from rfl,
      List.head?_cons] at h
    rw [← Option.some.inj h]

/-- Every record after the first carries a numeric percent change. -/
theorem build_day_records_tail_pct
    (rates : List (String × List (String × ℚ))) (r : DayRecord)
    (h : r ∈ (build_day_records rates).tail) :
    r.pct_change.isSome = true := by
  rw [build_day_records] at h
  cases hks : sortKeys (rates.map fun p => p.1) with
  | nil =>
    rw [hks] at h
    exact absurd h (by simp [buildRecordsGo])
  | cons k ks =>
    rw [hks] at h
    rw [show buildRecordsGo rates (k :: ks) Option.none =
          { date := k, rate := usdRate rates k, pct_change := Option.none }
          :: buildRecordsGo rates ks (some (usdRate rates k)) from rfl,
      List.tail_cons] at h
    exact buildRecordsGo_pct_isSome rates ks (usdRate rates k) r h

/-! ### Concrete fixtures for witnesses and counterexamples -/

/-- A decoded body whose `"rates"` object is empty. -/
def docEmpty : RawDoc := { rates := some [] }

/-- A decoded body with no `"rates"` key at all. -/
def docNoRates : RawDoc := { rates := Option.none }

/-- A healthy provider: every attempt yields `docEmpty`. -/
def envOk : Env := { attempt := fun _ => .ok docEmpty, fallback := .ok docEmpty }

/-- First attempt gets a 404 client error, the second succeeds. -/
def oracle404 : AttemptOracle := fun i =>
  if i = 0 then .error (.statusError 404) else .ok docEmpty

/-- Every attempt times out. -/
def oracleTimeout : AttemptOracle := fun _ => .error .timeout

/-- Every attempt yields a malformed body. -/
def oracleJson : AttemptOracle := fun _ => .error .jsonDecodeError

/-- Provider down, fallback file healthy. -/
def envDown : Env := { attempt := oracleTimeout, fallback := .ok docEmpty }

/-- Provider down and the fallback file unreadable. -/
def envAllDown : Env :=
  { attempt := oracleTimeout, fallback := .error (.ioError "no such file") }

/-- Provider healthy but returning a body without a `"rates"` key. -/
def envNoRates : Env :=
  { attempt := fun _ => .ok docNoRates, fallback := .ok docEmpty }

/-- The spec's Totals example: rates 1.03 and 1.05 on consecutive days. -/
def exampleRates : List (String × List (String × ℚ)) :=
  [("2025-01-02", [("USD", 103 / 100)]), ("2025-01-03", [("USD", 21 / 20)])]

theorem exampleRecords_eq : build_day_records exampleRates =
    [{ date := "2025-01-02", rate := 103 / 100, pct_change := Option.none },
     { date := "2025-01-03", rate := 21 / 20,
       pct_change := some (19417 / 10000) }] := by
  have hs : sortKeys (exampleRates.map fun p => p.1) =
      ["2025-01-02", "2025-01-03"] := by decide
  have h2 : usdRate exampleRates "2025-01-02" = 103 / 100 := rfl
  have h3 : usdRate exampleRates "2025-01-03" = 21 / 20 := rfl
  have hpct : safe_pct_change (21 / 20) (103 / 100) = 19417 / 10000 := by
    norm_num [safe_pct_change, pyRound, roundHalfEven]
  rw [build_day_records, hs]
  simp only [buildRecordsGo]
  rw [h2, h3]
  simp [hpct]

/-! ### Claim theorems -/

/-- C1, counterexample: the claim says 4xx client errors are never
retried, but the retry predicate
`retry_if_exception_type((httpx.HTTPError, httpx.TimeoutException))`
accepts every `httpx.HTTPError`, the `HTTPStatusError` of a 404
included: when the first attempt raises a 404 the fetcher retries, and
the second attempt's document is returned after 2 attempts. -/
theorem fetch_from_api_retries_404 :
    retryOn (PyErr.statusError 404) = true
    ∧ fetch_from_api oracle404 = (Except.ok docEmpty, 2) :=
  ⟨rfl, by decide⟩

/-- C1 (amended): the Network Fetcher performs at most 3 attempts
(`stop_after_attempt(3)`); it retries every `httpx` error — timeouts,
connection failures and HTTP status errors of any class, 4xx client
errors included — and a malformed response body
(`json.JSONDecodeError`) is never retried: it propagates after the
first attempt. -/
theorem fetch_from_api_retry_policy (o : AttemptOracle) (e : PyErr)
    (h0 : o 0 = Except.error e) (hfatal : retryOn e = false) :
    fetch_from_api o = (Except.error e, 1)
    ∧ (∀ o2 : AttemptOracle,
        1 ≤ (fetch_from_api o2).2 ∧ (fetch_from_api o2).2 ≤ 3)
    ∧ fetch_from_api oracleTimeout = (Except.error PyErr.timeout, 3)
    ∧ retryOn PyErr.timeout = true
    ∧ retryOn PyErr.connectError = true
    ∧ (∀ c : ℕ, retryOn (PyErr.statusError c) = true)
    ∧ retryOn PyErr.jsonDecodeError = false :=
  ⟨retryRun_fatal o 2 0 e h0 hfatal,
    fun o2 => ⟨retryRun_attempts_pos o2 2 0, retryRun_attempts_le o2 2 0⟩,
    by decide, rfl, rfl, fun _ => rfl, rfl⟩

/-- C1 (amended), witness: a malformed body on the first attempt is not
retried. -/
theorem fetch_from_api_retry_policy_w :
    oracleJson 0 = Except.error PyErr.jsonDecodeError
    ∧ retryOn PyErr.jsonDecodeError = false
    ∧ fetch_from_api oracleJson = (Except.error PyErr.jsonDecodeError, 1) :=
  ⟨rfl, rfl,
    (fetch_from_api_retry_policy oracleJson PyErr.jsonDecodeError rfl rfl).1⟩

/-- C2: on a cache miss, if the Network Fetcher's retries end in an
error, `fetch_rates` invokes the Fallback Loader exactly once, returns
its document and does not propagate the network error. -/
theorem fetch_rates_falls_back (env : Env) (now : ℕ) (st : FxState)
    (s e : String) (err : PyErr) (d : RawDoc)
    (hmiss : st.cache.lookup (cacheKey s e) now = Option.none)
    (hnet : (fetch_from_api env.attempt).1 = Except.error err)
    (hfb : env.fallback = Except.ok d) :
    (fetch_rates env now st s e).1 = Except.ok d
    ∧ (fetch_rates env now st s e).2.fallbackLoads = st.fallbackLoads + 1 := by
  have h := fetch_rates_miss_fallback_ok env now st s e err d hmiss hnet hfb
  exact ⟨h.1, h.2.1⟩

/-- C2, witness: provider down, fallback healthy. -/
theorem fetch_rates_falls_back_w :
    initState.cache.lookup (cacheKey "2025-01-01" "2025-01-07") 0 =
      Option.none
    ∧ (fetch_from_api envDown.attempt).1 = Except.error PyErr.timeout
    ∧ envDown.fallback = Except.ok docEmpty
    ∧ (fetch_rates envDown 0 initState "2025-01-01" "2025-01-07").1 =
        Except.ok docEmpty :=
  ⟨rfl, by decide, rfl,
    (fetch_rates_falls_back envDown 0 initState "2025-01-01" "2025-01-07"
      PyErr.timeout docEmpty rfl (by decide) rfl).1⟩

/-- C3: after a successful fetch on a cache miss, a second call for the
same range within the TTL window returns the identical cached document
against any environment, and leaves the state — the network-attempt and
fallback-load counters included — unchanged: zero network calls, no
fallback load. -/
theorem cache_hit_skips_network (env env' : Env) (t0 t1 : ℕ)
    (st : FxState) (s e : String) (d : RawDoc)
    (hmiss : st.cache.lookup (cacheKey s e) t0 = Option.none)
    (hok : (fetch_rates env t0 st s e).1 = Except.ok d)
    (_h01 : t0 ≤ t1) (httl : t1 < t0 + st.cache.ttl) :
    fetch_rates env' t1 (fetch_rates env t0 st s e).2 s e =
      (Except.ok d, (fetch_rates env t0 st s e).2)
    ∧ (fetch_rates env' t1 (fetch_rates env t0 st s e).2 s e).2.networkCalls
        = ((fetch_rates env t0 st s e).2).networkCalls
    ∧ (fetch_rates env' t1 (fetch_rates env t0 st s e).2 s e).2.fallbackLoads
        = ((fetch_rates env t0 st s e).2).fallbackLoads := by
  have h := fetch_rates_again env env' t0 t1 st s e d hmiss hok httl
  exact ⟨h, by rw [h], by rw [h]⟩

/-- C3, witness: a healthy first fetch at time 0, a second call 600 s
later — within the 900 s TTL — against an environment whose provider is
down. -/
theorem cache_hit_skips_network_w :
    initState.cache.lookup (cacheKey "2025-01-01" "2025-01-07") 0 =
      Option.none
    ∧ (fetch_rates envOk 0 initState "2025-01-01" "2025-01-07").1 =
        Except.ok docEmpty
    ∧ 0 ≤ 600
    ∧ 600 < 0 + initState.cache.ttl
    ∧ fetch_rates envAllDown 600
        (fetch_rates envOk 0 initState "2025-01-01" "2025-01-07").2
        "2025-01-01" "2025-01-07" =
      (Except.ok docEmpty,
       (fetch_rates envOk 0 initState "2025-01-01" "2025-01-07").2) :=
  ⟨rfl, by decide, by decide, by decide,
    (cache_hit_skips_network envOk envAllDown 0 600 initState
      "2025-01-01" "2025-01-07" docEmpty rfl (by decide) (by decide)
      (by decide)).1⟩

/-- C4: a fallback document obtained on a cache miss is cached under the
range key exactly like a live document: the degraded call returns the
fallback document, and any later call for the same range within the TTL
window returns that cached fallback document with the state unchanged —
the network is not re-attempted. -/
theorem fallback_document_is_cached (env env' : Env) (t0 t1 : ℕ)
    (st : FxState) (s e : String) (err : PyErr) (d : RawDoc)
    (hmiss : st.cache.lookup (cacheKey s e) t0 = Option.none)
    (hnet : (fetch_from_api env.attempt).1 = Except.error err)
    (hfb : env.fallback = Except.ok d)
    (_h01 : t0 ≤ t1) (httl : t1 < t0 + st.cache.ttl) :
    (fetch_rates env t0 st s e).1 = Except.ok d
    ∧ fetch_rates env' t1 (fetch_rates env t0 st s e).2 s e =
        (Except.ok d, (fetch_rates env t0 st s e).2) := by
  have h1 := (fetch_rates_miss_fallback_ok env t0 st s e err d
    hmiss hnet hfb).1
  exact ⟨h1, fetch_rates_again env env' t0 t1 st s e d hmiss h1 httl⟩

/-- C4, witness: first call degrades to the fallback at time 0; the call
600 s later is served from the cache. -/
theorem fallback_document_is_cached_w :
    initState.cache.lookup (cacheKey "2025-01-01" "2025-01-07") 0 =
      Option.none
    ∧ (fetch_from_api envDown.attempt).1 = Except.error PyErr.timeout
    ∧ envDown.fallback = Except.ok docEmpty
    ∧ 0 ≤ 600
    ∧ 600 < 0 + initState.cache.ttl
    ∧ (fetch_rates envDown 0 initState "2025-01-01" "2025-01-07").1 =
        Except.ok docEmpty :=
  ⟨rfl, by decide, rfl, by decide, by decide,
    (fallback_document_is_cached envDown envAllDown 0 600 initState
      "2025-01-01" "2025-01-07" PyErr.timeout docEmpty rfl (by decide) rfl
      (by decide) (by decide)).1⟩

/-- C5: if the network fetch fails terminally and the fallback load also
fails, `fetch_rates` — and `get_summary` with it — propagates the
Fallback Loader's error to the caller unchanged; no (partial or null)
response value is produced. -/
theorem fallback_error_propagates (env : Env) (now : ℕ) (st : FxState)
    (s e : String) (bd : BreakdownChoice) (err : PyErr) (fe : FallbackErr)
    (hmiss : st.cache.lookup (cacheKey s e) now = Option.none)
    (hnet : (fetch_from_api env.attempt).1 = Except.error err)
    (hfb : env.fallback = Except.error fe) :
    (fetch_rates env now st s e).1 = Except.error fe
    ∧ (get_summary env now st s e bd).1 = Except.error fe := by
  have h := (fetch_rates_miss_fallback_err env now st s e err fe
    hmiss hnet hfb).1
  exact ⟨h, get_summary_err env now st s e bd fe h⟩

/-- C5, witness: provider down and fallback file unreadable. -/
theorem fallback_error_propagates_w :
    initState.cache.lookup (cacheKey "2025-01-01" "2025-01-07") 0 =
      Option.none
    ∧ (fetch_from_api envAllDown.attempt).1 = Except.error PyErr.timeout
    ∧ envAllDown.fallback = Except.error (FallbackErr.ioError "no such file")
    ∧ (get_summary envAllDown 0 initState "2025-01-01" "2025-01-07"
        BreakdownChoice.day).1 =
      Except.error (FallbackErr.ioError "no such file") :=
  ⟨rfl, by decide, rfl,
    (fallback_error_propagates envAllDown 0 initState "2025-01-01"
      "2025-01-07" BreakdownChoice.day PyErr.timeout
      (FallbackErr.ioError "no such file") rfl (by decide) rfl).2⟩

/-- C6: for every raw rates dict (duplicate-free keys, in any order) the
Statistics Builder yields exactly one `DayRecord` per date key — the
produced dates are a permutation of the keys — strictly sorted ascending
by date; each record's rate is the document's USD entry for its date,
`0.0` when absent; the percent-change is null for exactly the first
record and numeric for all others. -/
theorem build_day_records_spec (rates : List (String × List (String × ℚ)))
    (hnd : (rates.map fun p => p.1).Nodup) :
    ((build_day_records rates).map DayRecord.date).Perm
      (rates.map fun p => p.1)
    ∧ ((build_day_records rates).map DayRecord.date).Sorted (· < ·)
    ∧ (∀ r ∈ build_day_records rates, r.rate = usdRate rates r.date)
    ∧ (∀ r0, (build_day_records rates).head? = some r0 →
        r0.pct_change = Option.none)
    ∧ (∀ r ∈ (build_day_records rates).tail, r.pct_change.isSome = true) := by
  refine ⟨?_, ?_, ?_, ?_, ?_⟩
  · rw [build_day_records_map_date]
    exact sortKeys_perm _
  · rw [build_day_records_map_date]
    exact sortKeys_sorted_lt _ hnd
  · exact buildRecordsGo_rate rates _ Option.none
  · exact fun r0 h => build_day_records_head_pct rates r0 h
  · exact fun r h => build_day_records_tail_pct rates r h

/-- C6, witness: two dates given in reverse order come out sorted. -/
theorem build_day_records_spec_w :
    (([("2025-01-03", [("USD", (0 : ℚ))]),
       ("2025-01-02", [("USD", (0 : ℚ))])].map fun p => p.1).Nodup)
    ∧ ((build_day_records
          [("2025-01-03", [("USD", (0 : ℚ))]),
           ("2025-01-02", [("USD", (0 : ℚ))])]).map
        DayRecord.date).Sorted (· < ·) :=
  ⟨by decide,
    (build_day_records_spec
      [("2025-01-03", [("USD", (0 : ℚ))]),
       ("2025-01-02", [("USD", (0 : ℚ))])] (by decide)).2.1⟩

/-- C7: the guarded percent change is total: at `previous = 0` it is
`0.0` (not an error, not infinity); otherwise it is
`round(((current - previous) / previous) * 100, 4)`; for consecutive
rates 0.0 and 10.0 the second day's percent change is `0.0`. -/
theorem safe_pct_change_spec (c p : ℚ) (hp : p ≠ 0) :
    safe_pct_change c p = pyRound ((c - p) / p * 100) 4
    ∧ safe_pct_change c 0 = 0
    ∧ (build_day_records
        [("2025-01-01", [("USD", 0)]), ("2025-01-02", [("USD", 10)])]).map
        DayRecord.pct_change = [Option.none, some 0] := by
  refine ⟨?_, ?_, ?_⟩
  · rw [safe_pct_change, if_neg hp]
  · rw [safe_pct_change, if_pos rfl]
  · decide

/-- C7, witness at rates 10 and 2. -/
theorem safe_pct_change_spec_w :
    ((2 : ℚ) ≠ 0)
    ∧ safe_pct_change 10 2 = pyRound ((10 - 2) / 2 * 100) 4 :=
  ⟨by norm_num, (safe_pct_change_spec 10 2 (by norm_num)).1⟩

/-- The spec's Totals example evaluated. -/
theorem exampleTotals_eq :
    build_totals (build_day_records exampleRates) =
      { start_rate := 103 / 100, end_rate := 21 / 20,
        total_pct_change := 19417 / 10000, mean_rate := 26 / 25 } := by
  rw [exampleRecords_eq, build_totals, dif_neg (List.cons_ne_nil _ _)]
  norm_num [safe_pct_change, pyRound, roundHalfEven]

/-- C8: `start_rate` is the first record's rate, `end_rate` the last's,
`total_percent_change` the guarded formula applied to (end, start), and
`mean_rate` the arithmetic mean of all rates rounded to 6 decimals; on
the empty sequence all four fields are `0.0`; on the spec's example
(1.03 then 1.05) the totals are 1.03, 1.05, 1.9417 and 1.04. -/
theorem build_totals_spec (records : List DayRecord) (r0 rN : DayRecord)
    (h0 : records.head? = some r0) (hN : records.getLast? = some rN) :
    (build_totals records).start_rate = r0.rate
    ∧ (build_totals records).end_rate = rN.rate
    ∧ (build_totals records).total_pct_change =
        safe_pct_change rN.rate r0.rate
    ∧ (build_totals records).mean_rate =
        pyRound ((records.map fun r => r.rate).sum / (records.length : ℚ)) 6
    ∧ build_totals [] =
        { start_rate := 0, end_rate := 0, total_pct_change := 0,
          mean_rate := 0 }
    ∧ build_totals (build_day_records exampleRates) =
        { start_rate := 103 / 100, end_rate := 21 / 20,
          total_pct_change := 19417 / 10000, mean_rate := 26 / 25 } := by
  have hne : records ≠ [] := by
    rintro rfl
    exact Option.noConfusion h0
  have hr0 : records.head hne = r0 :=
    Option.some.inj ((List.head?_eq_head hne).symm.trans h0)
  have hrN : records.getLast hne = rN :=
    Option.some.inj ((records.getLast?_eq_getLast hne).symm.trans hN)
  refine ⟨?_, ?_, ?_, ?_, rfl, exampleTotals_eq⟩
  · rw [build_totals, dif_neg hne]
    exact congrArg DayRecord.rate hr0
  · rw [build_totals, dif_neg hne]
    exact congrArg DayRecord.rate hrN
  · rw [build_totals, dif_neg hne]
    show safe_pct_change (records.getLast hne).rate
      (records.head hne).rate = _
    rw [hr0, hrN]
  · rw [build_totals, dif_neg hne]

/-- A one-record fixture. -/
def recZero : DayRecord :=
  { date := "2025-01-01", rate := 0, pct_change := Option.none }

/-- C8, witness at a one-record sequence. -/
theorem build_totals_spec_w :
    [recZero].head? = some recZero
    ∧ [recZero].getLast? = some recZero
    ∧ (build_totals [recZero]).start_rate = recZero.rate :=
  ⟨rfl, rfl, (build_totals_spec [recZero] recZero recZero rfl rfl).1⟩

/-- C9: a successful `get_summary` call yields base "EUR" and target
"USD", puts the day-record sequence in `days` exactly when breakdown is
"day" and leaves `days` null when it is "none", and always carries the
populated totals. -/
theorem get_summary_shape (env : Env) (now : ℕ) (st : FxState)
    (s e : String) (bd : BreakdownChoice) (doc : RawDoc)
    (hfetch : (fetch_rates env now st s e).1 = Except.ok doc) :
    (get_summary env now st s e bd).1 =
      Except.ok
        { base := "EUR", target := "USD", start_date := s, end_date := e,
          breakdown := bd.value,
          days := if bd = BreakdownChoice.day
                  then some (build_day_records doc.getRates)
                  else Option.none,
          totals := build_totals (build_day_records doc.getRates) } :=
  get_summary_ok env now st s e bd doc hfetch

/-- C9, witness with breakdown "none". -/
theorem get_summary_shape_w :
    (fetch_rates envOk 0 initState "2025-01-01" "2025-01-07").1 =
      Except.ok docEmpty
    ∧ (get_summary envOk 0 initState "2025-01-01" "2025-01-07"
        BreakdownChoice.none).1 =
      Except.ok
        { base := "EUR", target := "USD", start_date := "2025-01-01",
          end_date := "2025-01-07",
          breakdown := BreakdownChoice.none.value,
          days := if BreakdownChoice.none = BreakdownChoice.day
                  then some (build_day_records docEmpty.getRates)
                  else Option.none,
          totals := build_totals (build_day_records docEmpty.getRates) } :=
  ⟨rfl,
    get_summary_shape envOk 0 initState "2025-01-01" "2025-01-07"
      BreakdownChoice.none docEmpty rfl⟩

/-- C10: a fetched body without a `"rates"` key does not make
`get_summary` fail: it is treated as an empty rates dict, and the
response carries an empty day-record sequence and all-zero totals. -/
theorem get_summary_missing_rates (env : Env) (now : ℕ) (st : FxState)
    (s e : String) (bd : BreakdownChoice) (doc : RawDoc)
    (hfetch : (fetch_rates env now st s e).1 = Except.ok doc)
    (hnorates : doc.rates = Option.none) :
    (get_summary env now st s e bd).1 =
      Except.ok
        { base := "EUR", target := "USD", start_date := s, end_date := e,
          breakdown := bd.value,
          days := if bd = BreakdownChoice.day then some []
                  else Option.none,
          totals := { start_rate := 0, end_rate := 0,
                      total_pct_change := 0, mean_rate := 0 } } := by
  have h := get_summary_ok env now st s e bd doc hfetch
  have hg : doc.getRates = [] := by
    rw [RawDoc.getRates, hnorates]
    rfl
  rw [h, hg]
  rfl

/-- C10, witness: the provider returns a body with no `"rates"` key. -/
theorem get_summary_missing_rates_w :
    (fetch_rates envNoRates 0 initState "2025-01-01" "2025-01-07").1 =
      Except.ok docNoRates
    ∧ docNoRates.rates = Option.none
    ∧ (get_summary envNoRates 0 initState "2025-01-01" "2025-01-07"
        BreakdownChoice.day).1 =
      Except.ok
        { base := "EUR", target := "USD", start_date := "2025-01-01",
          end_date := "2025-01-07",
          breakdown := BreakdownChoice.day.value,
          days := if BreakdownChoice.day = BreakdownChoice.day then some []
                  else Option.none,
          totals := { start_rate := 0, end_rate := 0,
                      total_pct_change := 0, mean_rate := 0 } } :=
  ⟨rfl, rfl,
    get_summary_missing_rates envNoRates 0 initState "2025-01-01"
      "2025-01-07" BreakdownChoice.day docNoRates rfl rfl⟩

end FxService
